import Mathlib

/-!
Verification of the pumpagent/webhook repository's market-data bot logic.

The embedding below translates, from the Python sources:
  * the signal-confluence scorer `generate_trading_signal`
    (src/discord_crypto_bot.py, lines 295-444);
  * the message chunker `split_message`
    (src/discord_crypto_bot.py lines 36-60 / src/ai_pump_bot.py lines 44-68,
    which are textually identical);
  * the cache-lookup / rate-gate phase of the three revisions of the
    market-data gateway (`_fetch_data_from_twelve_data` in
    src/discord_crypto_bot.py and src/ai_pump_bot.py, `get_market_data`
    in src/app.py);
  * the news-branch HTTP-GET target of each revision;
  * the network-free `data_type == 'historical'` slice of
    src/app.py's `get_market_data`.

Python floats are modelled as exact rationals (ℚ).  Every quantity the
claims touch is a ratio of two small integers (weighted vote totals are
at most 10), and for all such ratios the double-precision computation
`(b / total) * 100` rounds to a value on the same side of the decision
boundaries 70 and 30, and inside the same unit interval, as the exact
rational, so the ℚ model is comparison- and truncation-faithful on the
reachable inputs.  Python's `int()` on the nonnegative values that occur
here is `Int.floor`.
-/

namespace PumpWebhook

/-! ## Signal scorer (src/discord_crypto_bot.py, `generate_trading_signal`) -/

/-- The three values `assessment_data['signal']` can take. -/
inductive Signal where
  | BUY
  | SELL
  | HOLD
deriving DecidableEq

/-- The two MACD fields the scorer reads: `float(data['macd'])` and
`float(data['signal'])`. -/
structure MacdReading where
  macd : ℚ
  signalLine : ℚ
deriving DecidableEq

/-- Outcome of the five upstream fetches `generate_trading_signal` performs:
the live quote and the four indicator fetches.  `none` models the
exception path of the corresponding `try` block (fetch or parse failure). -/
structure ScorerFetches where
  live : Option ℚ
  rsi : Option ℚ
  macd : Option MacdReading
  sma : Option ℚ
  supertrend : Option ℚ

/-- RSI vote (lines 346-357): `value < 30` gives the full configured weight
bullish, `value > 70` the full weight bearish, otherwise weight 1 to the
side of the midpoint 50. -/
def rsiVote (weight : ℕ) (value : ℚ) : ℕ × ℕ :=
  if value < 30 then (weight, 0)
  else if 70 < value then (0, weight)
  else if 50 < value then (1, 0)
  else (0, 1)

/-- MACD vote (lines 359-371): `macd > signal and macd < 0` gives the full
weight bullish, `macd < signal and macd > 0` the full weight bearish,
otherwise weight 1 to whichever side of `macd > signal` holds. -/
def macdVote (weight : ℕ) (m : MacdReading) : ℕ × ℕ :=
  if m.signalLine < m.macd ∧ m.macd < 0 then (weight, 0)
  else if m.macd < m.signalLine ∧ 0 < m.macd then (0, weight)
  else if m.signalLine < m.macd then (1, 0)
  else (0, 1)

/-- SMA vote (lines 373-380): full weight bullish iff the live price is
above the SMA value, else full weight bearish. -/
def smaVote (weight : ℕ) (price smaValue : ℚ) : ℕ × ℕ :=
  if smaValue < price then (weight, 0) else (0, weight)

/-- Supertrend vote (lines 382-389): full weight bullish iff the live price
is above the Supertrend value, else full weight bearish. -/
def supertrendVote (weight : ℕ) (price stValue : ℚ) : ℕ × ℕ :=
  if stValue < price then (weight, 0) else (0, weight)

/-- The loop of lines 334-404 over `indicators_to_check` with the configured
weights RSI=2, MACD=3, SMA=1, SUPERTREND=4; an indicator whose fetch or
parse failed contributes to neither total.  Returns
`(bullish_score, bearish_score)`. -/
def scoreVotes (price : ℚ) (f : ScorerFetches) : ℕ × ℕ :=
  let r := match f.rsi with | some v => rsiVote 2 v | none => (0, 0)
  let m := match f.macd with | some v => macdVote 3 v | none => (0, 0)
  let s := match f.sma with | some v => smaVote 1 price v | none => (0, 0)
  let t := match f.supertrend with | some v => supertrendVote 4 price v | none => (0, 0)
  (r.1 + m.1 + s.1 + t.1, r.2 + m.2 + s.2 + t.2)

/-- Lines 407-411: `bullish_percentage = (bullish_score / total_score) * 100`
when `total_score = bullish_score + bearish_score > 0`, else the neutral
default 50. -/
def bullishPercentage (bullish bearish : ℕ) : ℚ :=
  if 0 < bullish + bearish then ((bullish : ℚ) / ((bullish + bearish : ℕ) : ℚ)) * 100 else 50

/-- The fields of `assessment_data` the claims are about. -/
structure SignalAssessment where
  live_price : Option ℚ
  signal : Signal
  confidence_score : ℤ
deriving DecidableEq

/-- `generate_trading_signal` (lines 295-444).  If the live-price fetch
fails the function returns at line 319 with the initial `assessment_data`
(signal HOLD, confidence 50).  Otherwise the weighted votes are summed and
mapped through the threshold logic of lines 413-425; `int()` on the
nonnegative `bullish_percentage` is `Int.floor`. -/
def generate_trading_signal (f : ScorerFetches) : SignalAssessment :=
  match f.live with
  | none => { live_price := none, signal := .HOLD, confidence_score := 50 }
  | some price =>
    let votes := scoreVotes price f
    let bp := bullishPercentage votes.1 votes.2
    if 70 ≤ bp then
      { live_price := some price, signal := .BUY, confidence_score := ⌊bp⌋ }
    else if bp ≤ 30 then
      { live_price := some price, signal := .SELL, confidence_score := 100 - ⌊bp⌋ }
    else
      { live_price := some price, signal := .HOLD,
        confidence_score := max ⌊bp⌋ (100 - ⌊bp⌋) }

/-- Round-to-nearest (half away from zero on the nonnegative values that
occur here), the reading of `round(...)` in the specification's
confidence formulas. -/
def ratRound (q : ℚ) : ℤ := ⌊q + 1 / 2⌋

/-- The confidence formula the code actually computes, as a function of the
two vote totals: the truncated (`int()`, i.e. floor on these nonnegative
values) bullish percentage per branch, not the rounded-to-nearest one. -/
def confidenceTruncated (bullish bearish : ℕ) : ℤ :=
  let bp := bullishPercentage bullish bearish
  if 70 ≤ bp then ⌊bp⌋
  else if bp ≤ 30 then 100 - ⌊bp⌋
  else max ⌊bp⌋ (100 - ⌊bp⌋)

/-- A reachable input with bullish score 7 and bearish score 2: RSI 40 is a
weight-1 bearish vote, MACD with macd=-1 above signal=-2 and below zero is
the weight-3 bullish vote, price 100 below SMA 200 is the weight-1 bearish
vote, price 100 above Supertrend 50 is the weight-4 bullish vote. -/
def fetchesBull7Bear2 : ScorerFetches :=
  { live := some 100, rsi := some 40, macd := some ⟨-1, -2⟩,
    sma := some 200, supertrend := some 50 }

/-- The spec's worked-example configuration: RSI 25, MACD with the macd line
(-2) below the signal line (-1) and below zero, price 100 above SMA 90,
price 100 below Supertrend 110. -/
def fetchesWorkedExample : ScorerFetches :=
  { live := some 100, rsi := some 25, macd := some ⟨-2, -1⟩,
    sma := some 90, supertrend := some 110 }

/-- The worked-example configuration with symbolic values: RSI 25, MACD read
`⟨v, sl⟩`, SMA `s`, Supertrend `st`, live price `price`. -/
def workedExampleConfig (price v sl s st : ℚ) : ScorerFetches :=
  { live := some price, rsi := some 25, macd := some ⟨v, sl⟩,
    sma := some s, supertrend := some st }

/-! ## Market-data gateway: cache lookup and rate gates

Three revisions coexist in the repository:
  * src/discord_crypto_bot.py `_fetch_data_from_twelve_data`
    (TWELVE_DATA_MIN_INTERVAL = 1, NEWS_API_MIN_INTERVAL = 1,
    CACHE_DURATION = 10; cache bypassed for `data_type == 'live'`;
    the Twelve Data gate SLEEPS, the news gate raises);
  * src/ai_pump_bot.py `_fetch_data_from_twelve_data`
    (intervals 10/10, CACHE_DURATION = 10; cache for all types;
    both gates raise);
  * src/app.py `get_market_data`
    (intervals 10/10, CACHE_DURATION = 300; cache for all types;
    both gates return HTTP 429).
Payloads (`response_json` dicts) are modelled as opaque strings;
timestamps as rationals. -/

/-- The full parameter tuple of a gateway request.  Each revision keys its
cache on the tuple of the parameters it accepts; the superset here covers
all three. -/
structure FetchParams where
  data_type : String
  symbol : Option String := none
  interval : Option String := none
  outputsize : Option String := none
  indicator : Option String := none
  indicator_period : Option String := none
  indicator_multiplier : Option String := none
  news_query : Option String := none
  from_date : Option String := none
  sort_by : Option String := none
  news_language : Option String := none
deriving DecidableEq

/-- `api_response_cache`: an in-memory map from the key tuple to
`(response_json, timestamp)`.  Python dict assignment is `cacheInsert`
(shadowing cons) with `cacheLookup` returning the most recent binding. -/
def Cache : Type := List (FetchParams × String × ℚ)

def cacheLookup (c : Cache) (k : FetchParams) : Option (String × ℚ) :=
  match c.find? (fun e => e.1 == k) with
  | some e => some e.2
  | none => none

def cacheInsert (c : Cache) (k : FetchParams) (payload : String) (ts : ℚ) : Cache :=
  (k, payload, ts) :: c

/-- What the gateway decides to do before (or instead of) touching the
network: serve the cached payload, raise/return a rate-limit rejection
carrying the remaining wait time, silently sleep for the remaining wait
time and then proceed to the network, or proceed to the network at once. -/
inductive PreNetDecision where
  | serveCache (payload : String)
  | rejectRate (timeToWait : ℚ)
  | sleepThenFetch (timeToWait : ℚ)
  | fetchNetwork
deriving DecidableEq

/-- Is the decision a rate-limit rejection? -/
def PreNetDecision.isRejection : PreNetDecision → Bool
  | .rejectRate _ => true
  | _ => false

/-- src/discord_crypto_bot.py lines 98-101: if the Twelve Data interval
(1 s) has not elapsed, compute `time_to_wait` and `await
asyncio.sleep(time_to_wait)` — the caller is silently delayed, then the
fetch proceeds. -/
def discordTwelveGate (now last : ℚ) : PreNetDecision :=
  if now - last < 1 then .sleepThenFetch (1 - (now - last)) else .fetchNetwork

/-- src/discord_crypto_bot.py lines 238-242: if the news interval (1 s) has
not elapsed, raise a RequestException whose message shows
`int(time_to_wait) + 1` seconds. -/
def discordNewsGate (now last : ℚ) : PreNetDecision :=
  if now - last < 1 then .rejectRate (1 - (now - last)) else .fetchNetwork

/-- src/app.py lines 102-105 / 136-139: if the Twelve Data interval (10 s)
has not elapsed, return HTTP 429 with a message showing
`int(time_to_wait) + 1` seconds. -/
def appTwelveGate (now last : ℚ) : PreNetDecision :=
  if now - last < 10 then .rejectRate (10 - (now - last)) else .fetchNetwork

/-- src/app.py lines 394-397: the news gate, HTTP 429, interval 10 s. -/
def appNewsGate (now last : ℚ) : PreNetDecision :=
  if now - last < 10 then .rejectRate (10 - (now - last)) else .fetchNetwork

/-- src/ai_pump_bot.py lines 92-97: if the Twelve Data interval (10 s) has
not elapsed, raise a RequestException showing the remaining wait formatted
to two decimals. -/
def aiPumpTwelveGate (now last : ℚ) : PreNetDecision :=
  if now - last < 10 then .rejectRate (10 - (now - last)) else .fetchNetwork

/-- src/ai_pump_bot.py lines 98-103: the news gate, raise, interval 10 s. -/
def aiPumpNewsGate (now last : ℚ) : PreNetDecision :=
  if now - last < 10 then .rejectRate (10 - (now - last)) else .fetchNetwork

/-- The displayed wait estimate of the `int(time_to_wait) + 1`-style
messages. -/
def displayedWaitSeconds (timeToWait : ℚ) : ℤ := ⌊timeToWait⌋ + 1

/-- Cache check plus rate gate of src/discord_crypto_bot.py lines 87-101
and 238-242: the cache is consulted only when `data_type != 'live'`
(lines 91-96), a fresh hit short-circuits; otherwise non-news requests go
through the sleeping Twelve Data gate and news requests through the
raising news gate. -/
def discordPreNetwork (c : Cache) (p : FetchParams) (now lastTwelve lastNews : ℚ) :
    PreNetDecision :=
  let hit : Option String :=
    if p.data_type ≠ "live" then
      match cacheLookup c p with
      | some (payload, ts) => if now - ts < 10 then some payload else none
      | none => none
    else none
  match hit with
  | some payload => .serveCache payload
  | none =>
    if p.data_type ≠ "news" then discordTwelveGate now lastTwelve
    else discordNewsGate now lastNews

/-- Cache check plus rate gate of src/ai_pump_bot.py lines 80-103: cache
consulted for every data_type (TTL 10 s), then both gates raise. -/
def aiPumpPreNetwork (c : Cache) (p : FetchParams) (now lastTwelve lastNews : ℚ) :
    PreNetDecision :=
  match (match cacheLookup c p with
         | some (payload, ts) => if now - ts < 10 then some payload else none
         | none => none) with
  | some payload => .serveCache payload
  | none =>
    if p.data_type ≠ "news" then aiPumpTwelveGate now lastTwelve
    else aiPumpNewsGate now lastNews

/-- Cache check plus rate gate of src/app.py lines 84-105, 136-139 and
394-397: cache consulted for every data_type (TTL 300 s), a fresh hit is
returned directly (line 89); otherwise the 429 gates guard the live,
historical/indicator and news branches.  API keys are assumed configured
(the missing-key 500 of lines 92-95 is outside every claim). -/
def appPreNetwork (c : Cache) (p : FetchParams) (now lastTwelve lastNews : ℚ) :
    PreNetDecision :=
  match (match cacheLookup c p with
         | some (payload, ts) => if now - ts < 300 then some payload else none
         | none => none) with
  | some payload => .serveCache payload
  | none =>
    if p.data_type = "news" then appNewsGate now lastNews
    else appTwelveGate now lastTwelve

/-! ## News branch: the URL the HTTP GET is issued to -/

/-- What the news branch does at its `requests.get` call site. -/
inductive NewsFetchAction where
  | get (url : String)
  | raiseNameError (missingName : String)
deriving DecidableEq

/-- The NewsAPI query URL all three revisions build into `news_api_url`
(src/discord_crypto_bot.py lines 251-258, src/ai_pump_bot.py lines 369-376,
src/app.py lines 406-413). -/
def newsApiUrl (query fromDate sortBy lang apiKey : String) : String :=
  "https://newsapi.org/v2/everything?q=" ++ query ++ "&from=" ++ fromDate ++
    "&sortBy=" ++ sortBy ++ "&language=" ++ lang ++ "&apiKey=" ++ apiKey

/-- src/discord_crypto_bot.py line 260: `requests.get(news_api_url)` — the
GET goes to the constructed NewsAPI URL. -/
def discordNewsFetch (query fromDate sortBy lang apiKey : String) : NewsFetchAction :=
  .get (newsApiUrl query fromDate sortBy lang apiKey)

/-- src/app.py line 415: the news branch builds `news_api_url` (lines
406-413) but then executes `requests.get(api_url)`; on this branch the
local name `api_url` was never assigned (the live and historical/indicator
branches that assign it are mutually exclusive with the news branch), so
evaluation raises NameError before any request is issued and the generic
handler turns it into HTTP 500.  The constructed URL is dead. -/
def appNewsFetch (query fromDate sortBy lang apiKey : String) : NewsFetchAction :=
  let _newsUrl := newsApiUrl query fromDate sortBy lang apiKey
  .raiseNameError "api_url"

/-- src/ai_pump_bot.py line 378: same slip as src/app.py — the branch builds
`news_api_url` (lines 369-376) and then executes `requests.get(api_url)`
with `api_url` unbound, raising NameError to the caller. -/
def aiPumpNewsFetch (query fromDate sortBy lang apiKey : String) : NewsFetchAction :=
  let _newsUrl := newsApiUrl query fromDate sortBy lang apiKey
  .raiseNameError "api_url"

/-! ## The data_type = 'historical' slice of src/app.py get_market_data -/

/-- A webhook reply: HTTP status plus the optional "text" field of the JSON
body.  `text = none` models a body with no "text" key at all, such as
`jsonify({})`.  Exact message wording is elided to short labels; only the
presence and stringhood of the field matter to the claims. -/
structure WebhookResponse where
  status : ℕ
  text : Option String
deriving DecidableEq

/-- The `data_type == 'historical'` slice of src/app.py `get_market_data`
(lines 62-150 plus the fall-through at lines 390 and 436-441).  In the
source this path performs NO network request: after the cache check (line
85), the API-key check (line 92), the rate gate (line 136) and the symbol
check (line 141), the `if data_type == 'indicator'` block (lines 150-389)
is skipped entirely, `response_data` keeps its initial value `{}` (line
98), line 440 caches it and line 441 returns `jsonify({})` with HTTP 200.
`cacheHit` is the freshness-checked cache result for this key. -/
def app_get_market_data_historical (symbol : Option String)
    (cacheHit : Option (Option String)) (now lastTwelve : ℚ)
    (twelveKeySet : Bool) : WebhookResponse :=
  match cacheHit with
  | some body => { status := 200, text := body }
  | none =>
    if twelveKeySet = false then
      { status := 500, text := some "server configuration issue: API key missing" }
    else if now - lastTwelve < 10 then
      { status := 429, text := some "rate limited: try again shortly" }
    else
      match symbol with
      | none => { status := 400, text := some "missing symbol parameter" }
      | some s =>
        if s = "" then { status := 400, text := some "missing symbol parameter" }
        else { status := 200, text := none }

/-! ## Message chunking: `split_message`

src/discord_crypto_bot.py lines 36-60 and src/ai_pump_bot.py lines 44-68
are textually identical.  Strings are modelled as `List Char`; Python's
`str.rfind` for the non-empty needles used here is `rfindSub`; `lstrip`
is `lstripL` over the ASCII whitespace Python strips in chat text.  The
`while` loop is `splitLoop` driven by a fuel argument; `split_message`
supplies fuel `s.length`, which suffices because every iteration consumes
at least one character (`splitPoint` is positive for a positive limit). -/

/-- The whitespace characters Python's `str.lstrip()` removes that can
occur in chat text (ASCII). -/
def isPySpace (c : Char) : Bool :=
  c == ' ' || c == '\t' || c == '\n' || c == '\r' || c == '\x0b' || c == '\x0c'

/-- `str.lstrip()` on the list-of-characters model. -/
def lstripL (s : List Char) : List Char := s.dropWhile isPySpace

/-- Single left-to-right scan recording the last index at which `needle`
occurs; `i` is the absolute index of the head of the remaining suffix. -/
def rfindGo (needle : List Char) : List Char → ℕ → Option ℕ → Option ℕ
  | [], _, best => best
  | c :: rest, i, best =>
    rfindGo needle rest (i + 1) (if needle.isPrefixOf (c :: rest) then some i else best)

/-- Python `hay.rfind(needle)` for a non-empty needle: the greatest index
at which `needle` occurs in `hay` (`none` for Python's -1). -/
def rfindSub (hay needle : List Char) : Option ℕ := rfindGo needle hay 0 none

/-- The rfind cascade of lines 47-52 over the window
`message_content[:max_length]`: last newline, else last ". ", else last
" "; `none` when all three fail. -/
def splitPointRaw (window : List Char) : Option ℕ :=
  match rfindSub window ['\n'] with
  | some i => some i
  | none =>
    match rfindSub window ['.', ' '] with
    | some i => some i
    | none => rfindSub window [' ']

/-- Lines 47-55: the cascade result, forced to `max_length` when it is -1
or 0 (`if split_point == -1 or split_point == 0`). -/
def splitPoint (s : List Char) (maxLen : ℕ) : ℕ :=
  match splitPointRaw (s.take maxLen) with
  | none => maxLen
  | some 0 => maxLen
  | some (i + 1) => i + 1

/-- The `while len(message_content) > 0` loop of lines 42-58, with an
explicit fuel to make the recursion structural; `split_message` passes
fuel `s.length`, which the spec lemma shows is enough. -/
def splitLoop (maxLen : ℕ) : ℕ → List Char → List (List Char)
  | 0, _ => []
  | fuel + 1, s =>
    if s.length = 0 then []
    else if s.length ≤ maxLen then [s]
    else s.take (splitPoint s maxLen) ::
      splitLoop maxLen fuel (lstripL (s.drop (splitPoint s maxLen)))

/-- `split_message` (lines 36-60): a short message is returned whole,
otherwise the loop splits it. -/
def split_message (s : List Char) (maxLen : ℕ) : List (List Char) :=
  if s.length ≤ maxLen then [s] else splitLoop maxLen s.length s

/-- Where a split may land: either forced at exactly `maxLen`, or at a
positive index holding a newline, the '.' of a ". " pair, or a space —
the character the chunk stops in front of. -/
def goodSplit (s : List Char) (sp maxLen : ℕ) : Prop :=
  sp = maxLen ∨
    (0 < sp ∧ (s[sp]? = some '\n' ∨ (s[sp]? = some '.' ∧ s[sp + 1]? = some ' ') ∨
      s[sp]? = some ' '))

/-- The shape of the chunk list `split_message` produces from `s`: each
step cuts a chunk of at most `maxLen` characters at a `goodSplit` point
and continues on the `lstrip`-ped remainder; a final short remainder is
emitted whole. -/
inductive ChunksSpec (maxLen : ℕ) : List (List Char) → List Char → Prop
  | nil : ChunksSpec maxLen [] []
  | last (s : List Char) (h : s.length ≤ maxLen) : ChunksSpec maxLen [s] s
  | step (s : List Char) (sp : ℕ) (rest : List (List Char))
      (hlen : maxLen < s.length) (hsp : sp ≤ maxLen) (hpos : 0 < sp)
      (hgood : goodSplit s sp maxLen)
      (ht : ChunksSpec maxLen rest (lstripL (s.drop sp))) :
      ChunksSpec maxLen (s.take sp :: rest) s

/-- Concatenation modulo stripped whitespace: the chunks, interleaved with
the all-whitespace runs removed by `lstrip` at each split point,
reassemble the original string. -/
inductive GluesTo : List (List Char) → List Char → Prop
  | nil : GluesTo [] []
  | single (c : List Char) : GluesTo [c] c
  | cons (c w : List Char) (rest : List (List Char)) (s : List Char)
      (hw : ∀ ch ∈ w, isPySpace ch = true)
      (ht : GluesTo rest s) : GluesTo (c :: rest) (c ++ (w ++ s))

/-- A 2502-character message whose only newline is at index 0 of the first
2000-character window and whose only space sits at index 1501: the rfind
cascade returns the newline at index 0, the `split_point == 0` branch
forces a split at exactly 2000, between two letters. -/
def badMessage : List Char :=
  '\n' :: (List.replicate 1500 'a' ++ ' ' :: List.replicate 1000 'b')

/-! ## Theorems -/

lemma bullishPercentage_nonneg (b s : ℕ) : 0 ≤ bullishPercentage b s := by
  unfold bullishPercentage
  split_ifs with h
  · positivity
  · norm_num

lemma bullishPercentage_le_hundred (b s : ℕ) : bullishPercentage b s ≤ 100 := by
  unfold bullishPercentage
  split_ifs with h
  · have htot : (0 : ℚ) < ((b + s : ℕ) : ℚ) := by exact_mod_cast h
    have hb : ((b : ℕ) : ℚ) ≤ ((b + s : ℕ) : ℚ) := by exact_mod_cast Nat.le_add_right b s
    have hdiv : ((b : ℕ) : ℚ) / ((b + s : ℕ) : ℚ) ≤ 1 := (div_le_one htot).mpr hb
    calc ((b : ℕ) : ℚ) / ((b + s : ℕ) : ℚ) * 100 ≤ 1 * 100 :=
          mul_le_mul_of_nonneg_right hdiv (by norm_num)
      _ = 100 := by norm_num
  · norm_num

lemma floor_bullishPercentage_nonneg (b s : ℕ) : (0 : ℤ) ≤ ⌊bullishPercentage b s⌋ :=
  Int.le_floor.mpr (by exact_mod_cast bullishPercentage_nonneg b s)

lemma floor_bullishPercentage_le_hundred (b s : ℕ) : ⌊bullishPercentage b s⌋ ≤ 100 := by
  have h1 : (⌊bullishPercentage b s⌋ : ℚ) ≤ bullishPercentage b s := Int.floor_le _
  have h2 : (⌊bullishPercentage b s⌋ : ℚ) ≤ 100 := h1.trans (bullishPercentage_le_hundred b s)
  exact_mod_cast h2

/-- C1.  For every run with a successful live-price fetch and at least one
recorded vote, the final signal is BUY exactly when the bullish percentage
is at least 70, SELL exactly when it is at most 30, and HOLD otherwise;
both thresholds are inclusive. -/

theorem C1_signal_thresholds (f : ScorerFetches) (p : ℚ) (hlive : f.live = some p)
    (htot : 0 < (scoreVotes p f).1 + (scoreVotes p f).2) :
    (((generate_trading_signal f).signal = Signal.BUY ↔
        70 ≤ bullishPercentage (scoreVotes p f).1 (scoreVotes p f).2) ∧
     ((generate_trading_signal f).signal = Signal.SELL ↔
        bullishPercentage (scoreVotes p f).1 (scoreVotes p f).2 ≤ 30) ∧
     ((generate_trading_signal f).signal = Signal.HOLD ↔
        (30 < bullishPercentage (scoreVotes p f).1 (scoreVotes p f).2 ∧
         bullishPercentage (scoreVotes p f).1 (scoreVotes p f).2 < 70))) := by
  unfold generate_trading_signal
  rw [hlive]
  dsimp only
  set bp := bullishPercentage (scoreVotes p f).1 (scoreVotes p f).2 with hbp
  split_ifs with h1 h2
  · refine ⟨by simp [h1], ?_, ?_⟩
    · simp only [reduceCtorEq, false_iff, not_le]
      linarith
    · simp only [reduceCtorEq, false_iff, not_and, not_lt]
      intro _
      linarith
  · refine ⟨?_, by simp [h2], ?_⟩
    · simp only [reduceCtorEq, false_iff, not_le]
      linarith [lt_of_not_le h1]
    · simp only [reduceCtorEq, false_iff, not_and, not_lt]
      intro hc
      linarith
  · refine ⟨?_, ?_, ?_⟩
    · simp only [reduceCtorEq, false_iff, not_le]
      exact lt_of_not_le h1
    · simp only [reduceCtorEq, false_iff, not_le]
      exact lt_of_not_le h2
    · simp only [true_iff]
      exact ⟨lt_of_not_le h2, lt_of_not_le h1⟩

/-- Witness for C1 at a concrete input (bullish 7, bearish 2, percentage
700/9 ≥ 70, signal BUY). -/
theorem C1_signal_thresholds_witness :
    ((generate_trading_signal fetchesBull7Bear2).signal = Signal.BUY ↔
      70 ≤ bullishPercentage (scoreVotes 100 fetchesBull7Bear2).1
        (scoreVotes 100 fetchesBull7Bear2).2) :=
  (C1_signal_thresholds fetchesBull7Bear2 100 rfl
    (by norm_num [fetchesBull7Bear2, scoreVotes, rsiVote, macdVote, smaVote,
      supertrendVote])).1

/-- C2.  When every one of the four indicator fetches fails while the live
fetch succeeds, both scores are zero, the bullish percentage defaults to
50 and the result is HOLD with confidence 50. -/
theorem C2_all_indicators_fail_neutral (p : ℚ) :
    scoreVotes p { live := some p, rsi := none, macd := none, sma := none, supertrend := none }
        = (0, 0) ∧
    bullishPercentage 0 0 = 50 ∧
    generate_trading_signal
        { live := some p, rsi := none, macd := none, sma := none, supertrend := none }
      = { live_price := some p, signal := Signal.HOLD, confidence_score := 50 } := by
  refine ⟨rfl, by norm_num [bullishPercentage], ?_⟩
  unfold generate_trading_signal
  dsimp only
  norm_num [scoreVotes, bullishPercentage]

/-- Witness for C2 at live price 5. -/
theorem C2_all_indicators_fail_neutral_witness :
    generate_trading_signal
        { live := some 5, rsi := none, macd := none, sma := none, supertrend := none }
      = { live_price := some 5, signal := Signal.HOLD, confidence_score := 50 } :=
  (C2_all_indicators_fail_neutral 5).2.2

lemma scoreVotes_fetchesBull7Bear2 : scoreVotes 100 fetchesBull7Bear2 = (7, 2) := by
  norm_num [fetchesBull7Bear2, scoreVotes, rsiVote, macdVote, smaVote, supertrendVote]

lemma generate_fetchesBull7Bear2 :
    generate_trading_signal fetchesBull7Bear2
      = { live_price := some 100, signal := Signal.BUY, confidence_score := 77 } := by
  unfold generate_trading_signal
  show (match fetchesBull7Bear2.live with
    | none => ({ live_price := none, signal := .HOLD, confidence_score := 50 } : SignalAssessment)
    | some price =>
      let votes := scoreVotes price fetchesBull7Bear2
      let bp := bullishPercentage votes.1 votes.2
      if 70 ≤ bp then { live_price := some price, signal := .BUY, confidence_score := ⌊bp⌋ }
      else if bp ≤ 30 then
        { live_price := some price, signal := .SELL, confidence_score := 100 - ⌊bp⌋ }
      else
        { live_price := some price, signal := .HOLD,
          confidence_score := max ⌊bp⌋ (100 - ⌊bp⌋) }) = _
  rw [show fetchesBull7Bear2.live = some 100 from rfl]
  dsimp only
  rw [scoreVotes_fetchesBull7Bear2]
  have hbp : bullishPercentage 7 2 = 700 / 9 := by norm_num [bullishPercentage]
  rw [hbp]
  norm_num

/-- C3 counterexample.  At bullish score 7 and bearish score 2 (reachable,
see `fetchesBull7Bear2`), the bullish percentage is 700/9 = 77.7...; the
code reports BUY with confidence `int(700/9) = 77` (truncation), while the
claimed round-to-nearest formula gives `round(700/9) = 78`. -/
theorem C3_confidence_counterexample :
    scoreVotes 100 fetchesBull7Bear2 = (7, 2) ∧
    (generate_trading_signal fetchesBull7Bear2).signal = Signal.BUY ∧
    (generate_trading_signal fetchesBull7Bear2).confidence_score = 77 ∧
    ratRound (bullishPercentage 7 2) = 78 ∧
    (77 : ℤ) ≠ 78 := by
  refine ⟨scoreVotes_fetchesBull7Bear2, ?_, ?_, ?_, by norm_num⟩
  · rw [generate_fetchesBull7Bear2]
  · rw [generate_fetchesBull7Bear2]
  · have hbp : bullishPercentage 7 2 = 700 / 9 := by norm_num [bullishPercentage]
    rw [hbp]
    unfold ratRound
    norm_num

/-- C3 amended.  For every run with a successful live fetch and a positive
vote total, the reported confidence equals the truncation-based formula
`confidenceTruncated`: `int(bullishPercentage)` for BUY,
`100 - int(bullishPercentage)` for SELL, and
`max(int(bullishPercentage), 100 - int(bullishPercentage))` for HOLD —
truncation, not rounding to nearest. -/
theorem C3_confidence_truncated (f : ScorerFetches) (p : ℚ) (hlive : f.live = some p)
    (htot : 0 < (scoreVotes p f).1 + (scoreVotes p f).2) :
    (generate_trading_signal f).confidence_score
      = confidenceTruncated (scoreVotes p f).1 (scoreVotes p f).2 := by
  unfold generate_trading_signal confidenceTruncated
  rw [hlive]
  dsimp only
  split_ifs <;> rfl

/-- Witness for C3 amended at the same concrete input (confidence 77). -/
theorem C3_confidence_truncated_witness :
    (generate_trading_signal fetchesBull7Bear2).confidence_score
      = confidenceTruncated (scoreVotes 100 fetchesBull7Bear2).1
          (scoreVotes 100 fetchesBull7Bear2).2 :=
  C3_confidence_truncated fetchesBull7Bear2 100 rfl
    (by norm_num [fetchesBull7Bear2, scoreVotes, rsiVote, macdVote, smaVote, supertrendVote])

/-- C4 counterexample.  At the spec's worked example (`fetchesWorkedExample`:
RSI 25, MACD with the macd line below the signal line and below zero, price
above the SMA value, price below the Supertrend value) the code produces
bullish score 3 and bearish score 5 (not 6 and 4), bullish percentage 37.5
(not 60), and HOLD with confidence 63 (not 60): the MACD reading falls to
the weight-1 bearish fallback, because the weight-3 bullish branch requires
the macd line to be ABOVE the signal line while below zero. -/
theorem C4_worked_example_counterexample :
    scoreVotes 100 fetchesWorkedExample = (3, 5) ∧
    ((3, 5) : ℕ × ℕ) ≠ (6, 4) ∧
    bullishPercentage 3 5 = 75 / 2 ∧
    generate_trading_signal fetchesWorkedExample
      = { live_price := some 100, signal := Signal.HOLD, confidence_score := 63 } ∧
    (63 : ℤ) ≠ 60 := by
  have hv : scoreVotes 100 fetchesWorkedExample = (3, 5) := by
    norm_num [fetchesWorkedExample, scoreVotes, rsiVote, macdVote, smaVote, supertrendVote]
  have hbp : bullishPercentage 3 5 = 75 / 2 := by norm_num [bullishPercentage]
  refine ⟨hv, by decide, hbp, ?_, by norm_num⟩
  unfold generate_trading_signal
  rw [show fetchesWorkedExample.live = some 100 from rfl]
  dsimp only
  rw [hv, hbp]
  norm_num

/-- C4 amended.  With RSI = 25, any MACD reading whose macd line is below
the signal line and below zero, live price above the SMA value and below
the Supertrend value, the scorer yields bullishScore 3 (RSI weight 2 plus
SMA weight 1), bearishScore 5 (MACD fallback weight 1 plus Supertrend
weight 4), bullish percentage 37.5, signal HOLD, confidence 63. -/
theorem C4_worked_example_scores (price v sl s st : ℚ)
    (hm : v < sl) (hm0 : v < 0) (hsma : s < price) (hst : price < st) :
    scoreVotes price (workedExampleConfig price v sl s st) = (3, 5) ∧
    bullishPercentage 3 5 = 75 / 2 ∧
    generate_trading_signal (workedExampleConfig price v sl s st)
      = { live_price := some price, signal := Signal.HOLD, confidence_score := 63 } := by
  have h1 : ¬ (sl < v ∧ v < 0) := by
    rintro ⟨h, _⟩
    linarith
  have h2 : ¬ (v < sl ∧ 0 < v) := by
    rintro ⟨_, h⟩
    linarith
  have h3 : ¬ (sl < v) := by
    intro h
    linarith
  have h4 : ¬ (st < price) := not_lt_of_lt hst
  have hv : scoreVotes price (workedExampleConfig price v sl s st) = (3, 5) := by
    dsimp only [workedExampleConfig, scoreVotes, rsiVote, macdVote, smaVote, supertrendVote]
    rw [if_neg h1, if_neg h2, if_neg h3, if_pos hsma, if_neg h4]
    norm_num
  have hbp : bullishPercentage 3 5 = 75 / 2 := by norm_num [bullishPercentage]
  refine ⟨hv, hbp, ?_⟩
  unfold generate_trading_signal
  rw [show (workedExampleConfig price v sl s st).live = some price from rfl]
  dsimp only
  rw [hv, hbp]
  norm_num

/-- Witness for C4 amended at concrete values. -/
theorem C4_worked_example_scores_witness :
    generate_trading_signal (workedExampleConfig 100 (-2) (-1) 90 110)
      = { live_price := some 100, signal := Signal.HOLD, confidence_score := 63 } :=
  (C4_worked_example_scores 100 (-2) (-1) 90 110 (by norm_num) (by norm_num)
    (by norm_num) (by norm_num)).2.2

lemma cacheLookup_insert (c : Cache) (k : FetchParams) (payload : String) (ts : ℚ) :
    cacheLookup (cacheInsert c k payload ts) k = some (payload, ts) := by
  simp [cacheLookup, cacheInsert, List.find?]

/-- C5 counterexample.  A live-price request to the Discord signal bot
0.5 s after the previous Twelve Data call is inside the 1-second minimum
interval, yet the gate does not reject: it sleeps the caller for the
remaining 0.5 s and then proceeds to the network. -/

theorem C5_rate_gate_counterexample :
    discordTwelveGate (1 / 2) 0 = PreNetDecision.sleepThenFetch (1 - (1 / 2 - 0)) ∧
    (discordTwelveGate (1 / 2) 0).isRejection = false ∧
    discordPreNetwork [] { data_type := "live", symbol := some "BTC/USD" } (1 / 2) 0 0
      = PreNetDecision.sleepThenFetch (1 - (1 / 2 - 0)) := by
  have hg : discordTwelveGate (1 / 2) 0 = PreNetDecision.sleepThenFetch (1 - (1 / 2 - 0)) := by
    unfold discordTwelveGate
    norm_num
  refine ⟨hg, by rw [hg]; rfl, ?_⟩
  unfold discordPreNetwork
  simp only [cacheLookup, List.find?]
  norm_num [hg]
  intro h
  exact absurd h (by decide)

/-- C5 amended.  When a request arrives before the provider's minimum
interval has elapsed, the app.py gates (both providers), the ai_pump_bot
gates (both providers) and the Discord bot's news gate all reject
immediately, carrying a remaining-wait estimate that is nonnegative (and
whose displayed `int(wait) + 1` form is positive); the Discord bot's
Twelve Data gate is the exception: it silently sleeps for the remaining
time and then proceeds. -/
theorem C5_rate_gate_amended (now last : ℚ) :
    (now - last < 10 →
      appTwelveGate now last = PreNetDecision.rejectRate (10 - (now - last)) ∧
      appNewsGate now last = PreNetDecision.rejectRate (10 - (now - last)) ∧
      aiPumpTwelveGate now last = PreNetDecision.rejectRate (10 - (now - last)) ∧
      aiPumpNewsGate now last = PreNetDecision.rejectRate (10 - (now - last)) ∧
      0 ≤ 10 - (now - last) ∧ 0 < displayedWaitSeconds (10 - (now - last))) ∧
    (now - last < 1 →
      discordNewsGate now last = PreNetDecision.rejectRate (1 - (now - last)) ∧
      0 ≤ 1 - (now - last) ∧ 0 < displayedWaitSeconds (1 - (now - last)) ∧
      discordTwelveGate now last = PreNetDecision.sleepThenFetch (1 - (now - last))) := by
  constructor
  · intro h
    have hw : (0 : ℚ) ≤ 10 - (now - last) := by linarith
    have hd : 0 < displayedWaitSeconds (10 - (now - last)) := by
      unfold displayedWaitSeconds
      have : (0 : ℤ) ≤ ⌊(10 : ℚ) - (now - last)⌋ := Int.le_floor.mpr (by exact_mod_cast hw)
      omega
    exact ⟨by unfold appTwelveGate; rw [if_pos h], by unfold appNewsGate; rw [if_pos h],
      by unfold aiPumpTwelveGate; rw [if_pos h], by unfold aiPumpNewsGate; rw [if_pos h],
      hw, hd⟩
  · intro h
    have hw : (0 : ℚ) ≤ 1 - (now - last) := by linarith
    have hd : 0 < displayedWaitSeconds (1 - (now - last)) := by
      unfold displayedWaitSeconds
      have : (0 : ℤ) ≤ ⌊(1 : ℚ) - (now - last)⌋ := Int.le_floor.mpr (by exact_mod_cast hw)
      omega
    exact ⟨by unfold discordNewsGate; rw [if_pos h], hw, hd,
      by unfold discordTwelveGate; rw [if_pos h]⟩

/-- Witness for C5 amended at now = 0.5, last = 0. -/
theorem C5_rate_gate_amended_witness :
    appTwelveGate (1 / 2) 0 = PreNetDecision.rejectRate (10 - (1 / 2 - 0)) ∧
    discordTwelveGate (1 / 2) 0 = PreNetDecision.sleepThenFetch (1 - (1 / 2 - 0)) :=
  ⟨((C5_rate_gate_amended (1 / 2) 0).1 (by norm_num)).1,
   ((C5_rate_gate_amended (1 / 2) 0).2 (by norm_num)).2.2.2⟩

lemma appPreNetwork_fresh_hit (c : Cache) (p : FetchParams) (payload : String)
    (t1 now lastTwelve lastNews : ℚ) (h : now - t1 < 300) :
    appPreNetwork (cacheInsert c p payload t1) p now lastTwelve lastNews
      = PreNetDecision.serveCache payload := by
  unfold appPreNetwork
  rw [cacheLookup_insert]
  dsimp only
  rw [if_pos h]

lemma aiPumpPreNetwork_fresh_hit (c : Cache) (p : FetchParams) (payload : String)
    (t1 now lastTwelve lastNews : ℚ) (h : now - t1 < 10) :
    aiPumpPreNetwork (cacheInsert c p payload t1) p now lastTwelve lastNews
      = PreNetDecision.serveCache payload := by
  unfold aiPumpPreNetwork
  rw [cacheLookup_insert]
  dsimp only
  rw [if_pos h]

lemma discordPreNetwork_fresh_hit (c : Cache) (p : FetchParams) (payload : String)
    (t1 now lastTwelve lastNews : ℚ) (h : now - t1 < 10) (hp : p.data_type ≠ "live") :
    discordPreNetwork (cacheInsert c p payload t1) p now lastTwelve lastNews
      = PreNetDecision.serveCache payload := by
  unfold discordPreNetwork
  rw [cacheLookup_insert]
  dsimp only
  rw [if_pos hp]
  rw [if_pos h]

lemma discordPreNetwork_live_bypasses_cache (c : Cache) (p : FetchParams)
    (now lastTwelve lastNews : ℚ) (hp : p.data_type = "live") :
    discordPreNetwork c p now lastTwelve lastNews = discordTwelveGate now lastTwelve := by
  unfold discordPreNetwork
  have h1 : ¬ p.data_type ≠ "live" := by simp [hp]
  have h2 : p.data_type ≠ "news" := by rw [hp]; decide
  rw [if_neg h1]
  dsimp only
  rw [if_pos h2]

/-- C6 counterexample.  A live-price request cached 1 s ago (well inside the
10 s TTL) is NOT served from the cache by the Discord signal bot revision:
line 92 guards the lookup with `data_type != 'live'`, so the second
identical request falls through to the rate gate and the network
(`fetchNetwork` here, the elapsed 1 s having passed the 1 s gate) — while
the app.py revision serves the identical cached payload. -/

theorem C6_cache_counterexample :
    discordPreNetwork
        (cacheInsert [] { data_type := "live", symbol := some "BTC/USD" } "payload0" 0)
        { data_type := "live", symbol := some "BTC/USD" } 1 0 0
      = PreNetDecision.fetchNetwork ∧
    appPreNetwork
        (cacheInsert [] { data_type := "live", symbol := some "BTC/USD" } "payload0" 0)
        { data_type := "live", symbol := some "BTC/USD" } 1 0 0
      = PreNetDecision.serveCache "payload0" := by
  constructor
  · rw [discordPreNetwork_live_bypasses_cache _ _ _ _ _ rfl]
    unfold discordTwelveGate
    norm_num
  · exact appPreNetwork_fresh_hit _ _ _ _ _ _ _ (by norm_num)

/-- C6 amended.  After a successful fetch writes its payload into the cache,
a second request with the identical full parameter tuple arriving within
the revision's TTL is served that identical payload without reaching the
rate gate or the network — in app.py (TTL 300 s) and ai_pump_bot (TTL 10 s)
for every data_type, and in discord_crypto_bot (TTL 10 s) only for
`data_type ≠ 'live'`: there, a live request always bypasses the cache and
proceeds to the Twelve Data gate and the network. -/
theorem C6_cache_amended (c : Cache) (p : FetchParams) (payload : String)
    (t1 now lastTwelve lastNews : ℚ) :
    (now - t1 < 300 →
      appPreNetwork (cacheInsert c p payload t1) p now lastTwelve lastNews
        = PreNetDecision.serveCache payload) ∧
    (now - t1 < 10 →
      aiPumpPreNetwork (cacheInsert c p payload t1) p now lastTwelve lastNews
        = PreNetDecision.serveCache payload) ∧
    (now - t1 < 10 → p.data_type ≠ "live" →
      discordPreNetwork (cacheInsert c p payload t1) p now lastTwelve lastNews
        = PreNetDecision.serveCache payload) ∧
    (p.data_type = "live" →
      discordPreNetwork (cacheInsert c p payload t1) p now lastTwelve lastNews
        = discordTwelveGate now lastTwelve) :=
  ⟨appPreNetwork_fresh_hit c p payload t1 now lastTwelve lastNews,
   aiPumpPreNetwork_fresh_hit c p payload t1 now lastTwelve lastNews,
   fun h hp => discordPreNetwork_fresh_hit c p payload t1 now lastTwelve lastNews h hp,
   fun hp => discordPreNetwork_live_bypasses_cache _ p now lastTwelve lastNews hp⟩

/-- Witness for C6 amended: a concrete historical-data key cached at t = 0
and re-requested at t = 1 is served from the cache in all three revisions. -/
theorem C6_cache_amended_witness :
    discordPreNetwork
        (cacheInsert [] { data_type := "historical", symbol := some "BTC/USD" } "p1" 0)
        { data_type := "historical", symbol := some "BTC/USD" } 1 0 0
      = PreNetDecision.serveCache "p1" :=
  (C6_cache_amended [] { data_type := "historical", symbol := some "BTC/USD" } "p1"
      0 1 0 0).2.2.1 (by norm_num) (by decide)

/-- C7 evaluation.  At a validated news request (query present, gate
passed), only the Discord bot revision issues its GET to the NewsAPI URL it
constructed; the app.py and ai_pump_bot revisions instead evaluate the
unbound name `api_url` and raise NameError, never reaching NewsAPI. -/
theorem C7_news_get_target :
    discordNewsFetch "bitcoin" "2026-10-05" "publishedAt" "en" "KEY"
      = NewsFetchAction.get (newsApiUrl "bitcoin" "2026-10-05" "publishedAt" "en" "KEY") ∧
    appNewsFetch "bitcoin" "2026-10-05" "publishedAt" "en" "KEY"
      = NewsFetchAction.raiseNameError "api_url" ∧
    aiPumpNewsFetch "bitcoin" "2026-10-05" "publishedAt" "en" "KEY"
      = NewsFetchAction.raiseNameError "api_url" ∧
    NewsFetchAction.raiseNameError "api_url"
      ≠ NewsFetchAction.get (newsApiUrl "bitcoin" "2026-10-05" "publishedAt" "en" "KEY") :=
  ⟨rfl, rfl, rfl, by decide⟩

/-- C9 evaluation at the failing input.  A historical request with a valid
symbol, configured key, empty cache and the rate gate passed returns HTTP
200 whose body has NO "text" field (the empty JSON object), contradicting
the claim that every 200 response carries a string "text". -/
theorem C9_historical_no_text :
    app_get_market_data_historical (some "BTC/USD") none 100 0 true
      = { status := 200, text := none } ∧
    (app_get_market_data_historical (some "BTC/USD") none 100 0 true).text = none := by
  have h : app_get_market_data_historical (some "BTC/USD") none 100 0 true
      = { status := 200, text := none } := by
    unfold app_get_market_data_historical
    norm_num
    decide
  exact ⟨h, by rw [h]⟩

/-- C10.  Every SignalAssessment the scorer produces — including the early
return when the live-price fetch fails, which keeps the initial value 50 —
has a confidence score in the closed interval [50, 100]. -/

theorem C10_confidence_range (f : ScorerFetches) :
    50 ≤ (generate_trading_signal f).confidence_score ∧
    (generate_trading_signal f).confidence_score ≤ 100 := by
  unfold generate_trading_signal
  cases hlive : f.live with
  | none => exact ⟨by norm_num, by norm_num⟩
  | some price =>
    dsimp only
    set b := (scoreVotes price f).1
    set s := (scoreVotes price f).2
    have h0 := floor_bullishPercentage_nonneg b s
    have h100 := floor_bullishPercentage_le_hundred b s
    split_ifs with h1 h2
    · have h70 : (70 : ℤ) ≤ ⌊bullishPercentage b s⌋ :=
        Int.le_floor.mpr (by exact_mod_cast h1)
      exact ⟨by dsimp only; omega, by dsimp only; omega⟩
    · have h30 : ⌊bullishPercentage b s⌋ ≤ 30 := by
        have h : (⌊bullishPercentage b s⌋ : ℚ) ≤ 30 := (Int.floor_le _).trans h2
        exact_mod_cast h
      exact ⟨by dsimp only; omega, by dsimp only; omega⟩
    · constructor <;> dsimp only <;>
        rcases le_total ⌊bullishPercentage b s⌋ (100 - ⌊bullishPercentage b s⌋) with h | h <;>
        simp [max_eq_left, max_eq_right, h] <;> omega

/-- Witness for C10 at a concrete input. -/
theorem C10_confidence_range_witness :
    50 ≤ (generate_trading_signal fetchesBull7Bear2).confidence_score ∧
    (generate_trading_signal fetchesBull7Bear2).confidence_score ≤ 100 :=
  C10_confidence_range fetchesBull7Bear2

lemma rfindGo_sound (needle : List Char) (P : ℕ → Prop) :
    ∀ (l : List Char) (i : ℕ) (best : Option ℕ),
      (∀ j, best = some j → P j) →
      (∀ k, k < l.length → needle.isPrefixOf (l.drop k) = true → P (i + k)) →
      ∀ j, rfindGo needle l i best = some j → P j := by
  intro l
  induction l with
  | nil =>
    intro i best hbest _ j hj
    exact hbest j hj
  | cons c rest ih =>
    intro i best hbest hmatch j hj
    rw [rfindGo] at hj
    refine ih (i + 1) _ ?_ ?_ j hj
    · intro j' hj'
      split at hj'
      · cases hj'
        have h := hmatch 0 (Nat.succ_pos _) (by simpa using ‹needle.isPrefixOf (c :: rest) = true›)
        simpa using h
      · exact hbest j' hj'
    · intro k hk hpre
      have h := hmatch (k + 1) (by simpa using hk) (by simpa using hpre)
      have he : i + (k + 1) = i + 1 + k := by omega
      rwa [he] at h

lemma rfindSub_sound (hay needle : List Char) (j : ℕ) (h : rfindSub hay needle = some j) :
    j < hay.length ∧ needle.isPrefixOf (hay.drop j) = true := by
  refine rfindGo_sound needle
    (fun j => j < hay.length ∧ needle.isPrefixOf (hay.drop j) = true)
    hay 0 none (fun j hj => by cases hj) (fun k hk hpre => ?_) j h
  rw [Nat.zero_add]
  exact ⟨hk, hpre⟩

lemma rfindGo_no_match (needle : List Char) :
    ∀ (l : List Char) (i : ℕ) (best : Option ℕ),
      (∀ k, k < l.length → needle.isPrefixOf (l.drop k) = false) →
      rfindGo needle l i best = best := by
  intro l
  induction l with
  | nil =>
    intro i best _
    rfl
  | cons c rest ih =>
    intro i best hno
    rw [rfindGo]
    have h0 : needle.isPrefixOf (c :: rest) = false := by simpa using hno 0 (Nat.succ_pos _)
    simp only [h0, Bool.false_eq_true, if_false]
    exact ih (i + 1) best (fun k hk => by simpa using hno (k + 1) (by simpa using hk))

lemma isPrefixOf_single_iff (c : Char) (l : List Char) :
    ([c] : List Char).isPrefixOf l = true ↔ l[0]? = some c := by
  cases l with
  | nil => simp [List.isPrefixOf]
  | cons d t =>
    simp [List.isPrefixOf]
    constructor
    · intro h
      exact h.symm
    · intro h
      exact h.symm

lemma isPrefixOf_pair (c d : Char) (l : List Char) (h : ([c, d] : List Char).isPrefixOf l = true) :
    l[0]? = some c ∧ l[1]? = some d := by
  match l with
  | [] => simp [List.isPrefixOf] at h
  | [x] => simp [List.isPrefixOf] at h
  | x :: y :: t =>
    simp [List.isPrefixOf] at h
    simp [h.1, h.2]

lemma char_at_of_match_single {hay : List Char} {c : Char} {j : ℕ}
    (h : ([c] : List Char).isPrefixOf (hay.drop j) = true) : hay[j]? = some c := by
  have h0 := (isPrefixOf_single_iff c (hay.drop j)).mp h
  rwa [List.getElem?_drop, Nat.add_zero] at h0

lemma char_at_of_match_pair {hay : List Char} {c d : Char} {j : ℕ}
    (h : ([c, d] : List Char).isPrefixOf (hay.drop j) = true) :
    hay[j]? = some c ∧ hay[j + 1]? = some d := by
  obtain ⟨h0, h1⟩ := isPrefixOf_pair c d _ h
  rw [List.getElem?_drop, Nat.add_zero] at h0
  rw [List.getElem?_drop] at h1
  exact ⟨h0, h1⟩

lemma splitPointRaw_sound (window : List Char) (j : ℕ) (h : splitPointRaw window = some j) :
    j < window.length ∧
    (window[j]? = some '\n' ∨ (window[j]? = some '.' ∧ window[j + 1]? = some ' ') ∨
      window[j]? = some ' ') := by
  unfold splitPointRaw at h
  cases h1 : rfindSub window ['\n'] with
  | some i =>
    rw [h1] at h
    dsimp only at h
    obtain rfl : i = j := by injection h
    obtain ⟨hlt, hpre⟩ := rfindSub_sound window ['\n'] i h1
    exact ⟨hlt, Or.inl (char_at_of_match_single hpre)⟩
  | none =>
    rw [h1] at h
    dsimp only at h
    cases h2 : rfindSub window ['.', ' '] with
    | some i =>
      rw [h2] at h
      dsimp only at h
      obtain rfl : i = j := by injection h
      obtain ⟨hlt, hpre⟩ := rfindSub_sound window ['.', ' '] i h2
      exact ⟨hlt, Or.inr (Or.inl (char_at_of_match_pair hpre))⟩
    | none =>
      rw [h2] at h
      dsimp only at h
      obtain ⟨hlt, hpre⟩ := rfindSub_sound window [' '] j h
      exact ⟨hlt, Or.inr (Or.inr (char_at_of_match_single hpre))⟩

lemma splitPoint_le (s : List Char) (maxLen : ℕ) : splitPoint s maxLen ≤ maxLen := by
  unfold splitPoint
  cases h : splitPointRaw (s.take maxLen) with
  | none => exact le_refl _
  | some i =>
    cases i with
    | zero => exact le_refl _
    | succ n =>
      have hlt := (splitPointRaw_sound _ _ h).1
      rw [List.length_take] at hlt
      dsimp only
      omega

lemma splitPoint_pos (s : List Char) (maxLen : ℕ) (hm : 0 < maxLen) :
    0 < splitPoint s maxLen := by
  unfold splitPoint
  cases h : splitPointRaw (s.take maxLen) with
  | none => exact hm
  | some i =>
    cases i with
    | zero => exact hm
    | succ n => exact Nat.succ_pos _

lemma splitPoint_good (s : List Char) (maxLen : ℕ) :
    goodSplit s (splitPoint s maxLen) maxLen := by
  unfold splitPoint
  cases h : splitPointRaw (s.take maxLen) with
  | none => exact Or.inl rfl
  | some i =>
    cases i with
    | zero => exact Or.inl rfl
    | succ n =>
      obtain ⟨hlt, hchar⟩ := splitPointRaw_sound _ _ h
      have hmax : n + 1 < maxLen := by
        rw [List.length_take] at hlt
        omega
      refine Or.inr ⟨Nat.succ_pos _, ?_⟩
      rcases hchar with hnl | ⟨hdot, hsp⟩ | hspc
      · exact Or.inl (by rwa [List.getElem?_take_of_lt hmax] at hnl)
      · refine Or.inr (Or.inl ⟨by rwa [List.getElem?_take_of_lt hmax] at hdot, ?_⟩)
        have hlt2 : n + 1 + 1 < (s.take maxLen).length := by
          obtain ⟨hh, _⟩ := List.getElem?_eq_some.mp hsp
          exact hh
        rw [List.length_take] at hlt2
        rwa [List.getElem?_take_of_lt (by omega)] at hsp
      · exact Or.inr (Or.inr (by rwa [List.getElem?_take_of_lt hmax] at hspc))

lemma ChunksSpec.chunk_le {maxLen : ℕ} {cs : List (List Char)} {s : List Char}
    (h : ChunksSpec maxLen cs s) : ∀ c ∈ cs, c.length ≤ maxLen := by
  induction h with
  | nil => intro c hc; cases hc
  | last s hs =>
    intro c hc
    rw [List.mem_singleton] at hc
    subst hc
    exact hs
  | step s sp rest hlen hsp hpos hgood ht ih =>
    intro c hc
    rcases List.mem_cons.mp hc with rfl | hc
    · calc (s.take sp).length ≤ sp := by rw [List.length_take]; omega
        _ ≤ maxLen := hsp
    · exact ih c hc

lemma ChunksSpec.gluesTo {maxLen : ℕ} {cs : List (List Char)} {s : List Char}
    (h : ChunksSpec maxLen cs s) : GluesTo cs s := by
  induction h with
  | nil => exact .nil
  | last s _ => exact .single s
  | step s sp rest hlen hsp hpos hgood ht ih =>
    have hg : GluesTo (s.take sp :: rest)
        (s.take sp ++ ((s.drop sp).takeWhile isPySpace ++ lstripL (s.drop sp))) :=
      .cons _ _ _ _ (fun ch hch => List.mem_takeWhile_imp hch) ih
    have hs : s.take sp ++ ((s.drop sp).takeWhile isPySpace ++ lstripL (s.drop sp)) = s := by
      rw [lstripL, List.takeWhile_append_dropWhile, List.take_append_drop]
    rwa [hs] at hg

lemma splitLoop_step_eq (maxLen fuel : ℕ) (s : List Char)
    (h0 : s.length ≠ 0) (h1 : ¬ s.length ≤ maxLen) :
    splitLoop maxLen (fuel + 1) s = s.take (splitPoint s maxLen) ::
      splitLoop maxLen fuel (lstripL (s.drop (splitPoint s maxLen))) := by
  rw [splitLoop, if_neg h0, if_neg h1]

lemma splitLoop_last_eq (maxLen fuel : ℕ) (s : List Char)
    (h0 : s.length ≠ 0) (h1 : s.length ≤ maxLen) :
    splitLoop maxLen (fuel + 1) s = [s] := by
  rw [splitLoop, if_neg h0, if_pos h1]

lemma splitLoop_spec (maxLen : ℕ) (hm : 0 < maxLen) :
    ∀ (fuel : ℕ) (s : List Char), s.length ≤ fuel →
      ChunksSpec maxLen (splitLoop maxLen fuel s) s := by
  intro fuel
  induction fuel with
  | zero =>
    intro s hs
    obtain rfl : s = [] := List.length_eq_zero.mp (Nat.le_zero.mp hs)
    exact .nil
  | succ fuel ih =>
    intro s hs
    by_cases h0 : s.length = 0
    · obtain rfl : s = [] := List.length_eq_zero.mp h0
      rw [show splitLoop maxLen (fuel + 1) [] = [] from by rw [splitLoop]; simp]
      exact .nil
    · by_cases hle : s.length ≤ maxLen
      · rw [splitLoop_last_eq maxLen fuel s h0 hle]
        exact .last s hle
      · rw [splitLoop_step_eq maxLen fuel s h0 hle]
        refine ChunksSpec.step s (splitPoint s maxLen) _ (lt_of_not_le hle)
          (splitPoint_le s maxLen) (splitPoint_pos s maxLen hm)
          (splitPoint_good s maxLen) (ih _ ?_)
        have hd : (lstripL (s.drop (splitPoint s maxLen))).length
            ≤ (s.drop (splitPoint s maxLen)).length :=
          List.Sublist.length_le (List.dropWhile_sublist _)
        have hd2 : (s.drop (splitPoint s maxLen)).length = s.length - splitPoint s maxLen :=
          List.length_drop _ _
        have hp := splitPoint_pos s maxLen hm
        omega

/-- C8 amended.  For every input string, `split_message` (limit 2000)
produces chunks of length at most 2000 whose concatenation reproduces the
input modulo the whitespace runs removed by `lstrip` at each split point,
and every split either lands on a newline/". "/space boundary at a
positive index of the current remainder or is a forced cut at exactly
2000 characters; the forced mid-word cut can occur even when a boundary
exists in the window, namely when the chosen boundary kind sits only at
index 0. -/
theorem C8_chunking (s : List Char) :
    ChunksSpec 2000 (split_message s 2000) s ∧
    (∀ c ∈ split_message s 2000, c.length ≤ 2000) ∧
    GluesTo (split_message s 2000) s := by
  have hspec : ChunksSpec 2000 (split_message s 2000) s := by
    unfold split_message
    by_cases h : s.length ≤ 2000
    · rw [if_pos h]
      exact .last s h
    · rw [if_neg h]
      exact splitLoop_spec 2000 (by norm_num) s.length s le_rfl
  exact ⟨hspec, hspec.chunk_le, hspec.gluesTo⟩

/-- Witness for C8 amended: on a concrete short message the chunk-length
bound is discharged at a concrete member chunk. -/
theorem C8_chunking_witness : (['h', 'i'] : List Char).length ≤ 2000 :=
  (C8_chunking ['h', 'i']).2.1 ['h', 'i']
    (by unfold split_message
        rw [if_pos (by norm_num)]
        exact List.mem_singleton_self _)

lemma badMessage_length : badMessage.length = 2502 := by
  rw [badMessage, List.length_cons, List.length_append, List.length_replicate,
    List.length_cons, List.length_replicate]

lemma badMessage_take : badMessage.take 2000
    = '\n' :: (List.replicate 1500 'a' ++ ' ' :: List.replicate 498 'b') := by
  rw [badMessage, show (2000 : ℕ) = 1999 + 1 from rfl, List.take_succ_cons,
    List.take_append_eq_append_take,
    List.take_of_length_le (by rw [List.length_replicate]; norm_num),
    List.length_replicate, show (1999 - 1500 : ℕ) = 498 + 1 from rfl,
    List.take_succ_cons, List.take_replicate, show (498 ⊓ 1000 : ℕ) = 498 by norm_num]

lemma badMessage_drop : badMessage.drop 2000 = List.replicate 502 'b' := by
  rw [badMessage, show (2000 : ℕ) = 1999 + 1 from rfl, List.drop_succ_cons,
    List.drop_append_eq_append_drop,
    List.drop_eq_nil_of_le (by rw [List.length_replicate]; norm_num),
    List.length_replicate, List.nil_append, show (1999 - 1500 : ℕ) = 498 + 1 from rfl,
    List.drop_succ_cons, List.drop_replicate, show (1000 - 498 : ℕ) = 502 from rfl]

lemma badWindow_no_newline_tail :
    ∀ k, k < (List.replicate 1500 'a' ++ ' ' :: List.replicate 498 'b').length →
      (['\n'] : List Char).isPrefixOf
        ((List.replicate 1500 'a' ++ ' ' :: List.replicate 498 'b').drop k) = false := by
  intro k _
  by_contra hcon
  rw [Bool.not_eq_false] at hcon
  have hmem := List.getElem?_mem (char_at_of_match_single hcon)
  rcases List.mem_append.mp hmem with h | h
  · exact absurd (List.eq_of_mem_replicate h) (by decide)
  · rcases List.mem_cons.mp h with h | h
    · exact absurd h (by decide)
    · exact absurd (List.eq_of_mem_replicate h) (by decide)

lemma rfind_newline_badWindow :
    rfindSub ('\n' :: (List.replicate 1500 'a' ++ ' ' :: List.replicate 498 'b')) ['\n']
      = some 0 := by
  unfold rfindSub
  rw [rfindGo]
  have hpre : (['\n'] : List Char).isPrefixOf
      ('\n' :: (List.replicate 1500 'a' ++ ' ' :: List.replicate 498 'b')) = true := by
    rw [show (['\n'] : List Char).isPrefixOf
        ('\n' :: (List.replicate 1500 'a' ++ ' ' :: List.replicate 498 'b'))
        = (('\n' == '\n') && ([] : List Char).isPrefixOf
            (List.replicate 1500 'a' ++ ' ' :: List.replicate 498 'b')) from rfl,
      show (([] : List Char).isPrefixOf
          (List.replicate 1500 'a' ++ ' ' :: List.replicate 498 'b')) = true from rfl]
    decide
  rw [if_pos hpre]
  exact rfindGo_no_match ['\n'] _ 1 (some 0) badWindow_no_newline_tail

lemma splitPoint_badMessage : splitPoint badMessage 2000 = 2000 := by
  unfold splitPoint
  rw [badMessage_take]
  unfold splitPointRaw
  rw [rfind_newline_badWindow]

lemma lstrip_replicate_b : lstripL (List.replicate 502 'b') = List.replicate 502 'b' := by
  rw [show (502 : ℕ) = 501 + 1 from rfl, List.replicate_succ, lstripL, List.dropWhile_cons,
    if_neg (by decide)]

/-- C8 counterexample.  On `badMessage` the first window's only newline is
at index 0, so `rfind('\n')` returns 0 and the code forces the split at
exactly 2000 — between two letters 'b' (both neighbours of the cut are
non-whitespace, a mid-word split) — even though the window contains both a
newline and a space boundary.  This refutes the claim's "mid-word only
when no boundary exists within the limit". -/
theorem C8_chunking_counterexample :
    split_message badMessage 2000 = [badMessage.take 2000, List.replicate 502 'b'] ∧
    (badMessage.take 2000).length = 2000 ∧
    badMessage[1999]? = some 'b' ∧
    badMessage[2000]? = some 'b' ∧
    isPySpace 'b' = false ∧
    ' ' ∈ badMessage.take 2000 ∧
    '\n' ∈ badMessage.take 2000 := by
  refine ⟨?_, ?_, ?_, ?_, by decide, ?_, ?_⟩
  · unfold split_message
    rw [if_neg (by rw [badMessage_length]; norm_num), badMessage_length,
      show (2502 : ℕ) = 2501 + 1 from rfl,
      splitLoop_step_eq 2000 2501 badMessage
        (by rw [badMessage_length]; norm_num) (by rw [badMessage_length]; norm_num),
      splitPoint_badMessage, badMessage_drop, lstrip_replicate_b,
      show (2501 : ℕ) = 2500 + 1 from rfl,
      splitLoop_last_eq 2000 2500 (List.replicate 502 'b')
        (by rw [List.length_replicate]; norm_num) (by rw [List.length_replicate]; norm_num)]
  · rw [List.length_take, badMessage_length]
    norm_num
  · rw [badMessage, show (1999 : ℕ) = 1998 + 1 from rfl, List.getElem?_cons_succ,
      List.getElem?_append_right (by rw [List.length_replicate]; norm_num),
      List.length_replicate, show (1998 - 1500 : ℕ) = 497 + 1 from rfl,
      List.getElem?_cons_succ]
    exact List.getElem?_replicate_of_lt (by norm_num)
  · rw [badMessage, show (2000 : ℕ) = 1999 + 1 from rfl, List.getElem?_cons_succ,
      List.getElem?_append_right (by rw [List.length_replicate]; norm_num),
      List.length_replicate, show (1999 - 1500 : ℕ) = 498 + 1 from rfl,
      List.getElem?_cons_succ]
    exact List.getElem?_replicate_of_lt (by norm_num)
  · rw [badMessage_take]
    exact List.mem_cons_of_mem _ (List.mem_append_right _ (List.mem_cons_self _ _))
  · rw [badMessage_take]
    exact List.mem_cons_self _ _

end PumpWebhook
